import Mathlib

/-!
Verification development for the ETF momentum pipeline in `src/main.py`
(repository jxie418/quantlearning).

The pipeline is: fetch price series -> compute_indicators -> generate_signals
-> simulate_trades -> summary.  Prices and indicator values are embedded as
rationals; a pandas `NaN` cell is embedded as `none : Option ℚ`, and the
pandas comparison semantics (any comparison with `NaN` is `False`) is embedded
by the `oLT/oLE/oGT/oGE` operations below.
-/

namespace Quantlearning

/-- Module-level constants from `main.py`. -/
def RSI_BUY : ℚ := 40

def RSI_SELL : ℚ := 70

def PE_BUY_MAX : ℚ := 25

def MA_PERIOD : Nat := 200

/-- Source: `a < b` with pandas `NaN` semantics: false when either side is `NaN`. -/
def oLT (a b : Option ℚ) : Bool :=
  match a, b with
  | some x, some y => decide (x < y)
  | _, _ => false

/-- Source: `a ≤ b` with pandas `NaN` semantics: false when either side is `NaN`. -/
def oLE (a b : Option ℚ) : Bool :=
  match a, b with
  | some x, some y => decide (x ≤ y)
  | _, _ => false

/-- Source: `a > b` with pandas `NaN` semantics: false when either side is `NaN`. -/
def oGT (a b : Option ℚ) : Bool :=
  match a, b with
  | some x, some y => decide (y < x)
  | _, _ => false

/-- Source: `a ≥ b` with pandas `NaN` semantics: false when either side is `NaN`. -/
def oGE (a b : Option ℚ) : Bool :=
  match a, b with
  | some x, some y => decide (y ≤ x)
  | _, _ => false

/-- One row of the indicator frame returned by `compute_indicators`:
columns `Close, RSI, MACD, MACD_signal, MACD_diff, MA200`.  `Close` comes
from the downloaded price series and is always a number; the indicator
columns may be `NaN` during warm-up. -/
structure IndRow where
  close : ℚ
  rsi : Option ℚ
  macd : Option ℚ
  macd_signal : Option ℚ
  macd_diff : Option ℚ
  ma200 : Option ℚ
deriving DecidableEq

instance : Inhabited IndRow := ⟨⟨0, none, none, none, none, none⟩⟩

/-- One row of the signal frame: the indicator row plus the two boolean
columns `Buy_Signal` and `Sell_Signal` added by `generate_signals`. -/
structure SigRow extends IndRow where
  buySignal : Bool
  sellSignal : Bool
deriving DecidableEq

/-- Column extraction, mirroring `df["MACD"]` etc. -/
def colMACD (df : List IndRow) : List (Option ℚ) := df.map (·.macd)

def colSig (df : List IndRow) : List (Option ℚ) := df.map (·.macd_signal)

def colRSI (df : List IndRow) : List (Option ℚ) := df.map (·.rsi)

def colClose (df : List IndRow) : List ℚ := df.map (·.close)

def colMA (df : List IndRow) : List (Option ℚ) := df.map (·.ma200)

/-- Pandas `Series.shift(1)`: the first cell becomes `NaN` and every other
cell takes the value of the previous row; the length is unchanged. -/
def shift1 (xs : List (Option ℚ)) : List (Option ℚ) :=
  if xs = [] then [] else none :: xs.dropLast

/-- Pointwise boolean AND of two aligned columns (pandas `&`). -/
def colAnd (a b : List Bool) : List Bool := List.zipWith (fun x y => x && y) a b

/-- Source: `(df["MACD"] > df["MACD_signal"]) & (df["MACD"].shift(1) <= df["MACD_signal"].shift(1))`. -/
def macd_cross_up_col (df : List IndRow) : List Bool :=
  colAnd (List.zipWith oGT (colMACD df) (colSig df))
    (List.zipWith oLE (shift1 (colMACD df)) (shift1 (colSig df)))

/-- Source: `(df["MACD"] < df["MACD_signal"]) & (df["MACD"].shift(1) >= df["MACD_signal"].shift(1))`. -/
def macd_cross_down_col (df : List IndRow) : List Bool :=
  colAnd (List.zipWith oLT (colMACD df) (colSig df))
    (List.zipWith oGE (shift1 (colMACD df)) (shift1 (colSig df)))

/-- Source: `df["RSI"] < RSI_BUY`. -/
def cond_rsi_buy_col (df : List IndRow) : List Bool :=
  (colRSI df).map (fun x => oLT x (some RSI_BUY))

/-- Source: `df["RSI"] > RSI_SELL`. -/
def cond_rsi_sell_col (df : List IndRow) : List Bool :=
  (colRSI df).map (fun x => oGT x (some RSI_SELL))

/-- Source: `df["Close"] > df["MA200"]`. -/
def cond_close_above_ma_col (df : List IndRow) : List Bool :=
  List.zipWith (fun c a => oGT (some c) a) (colClose df) (colMA df)

/-- Source: `df["Close"] < df["MA200"]`. -/
def cond_close_below_ma_col (df : List IndRow) : List Bool :=
  List.zipWith (fun c a => oLT (some c) a) (colClose df) (colMA df)

/-- Source: `True if pe_val is None else (pe_val < PE_BUY_MAX)`. -/
def cond_pe_buy (pe_val : Option ℚ) : Bool :=
  match pe_val with
  | none => true
  | some v => decide (v < PE_BUY_MAX)

/-- Source: `True if pe_val is None else (pe_val > PE_BUY_MAX)`. -/
def cond_pe_sell (pe_val : Option ℚ) : Bool :=
  match pe_val with
  | none => true
  | some v => decide (PE_BUY_MAX < v)

/-- Source: `buy_signal = cond_rsi_buy & macd_cross_up & cond_close_below_ma & cond_pe_buy`
(the last factor is a scalar boolean, broadcast by pandas). -/
def buy_signal_col (df : List IndRow) (pe_val : Option ℚ) : List Bool :=
  (colAnd (colAnd (cond_rsi_buy_col df) (macd_cross_up_col df))
      (cond_close_below_ma_col df)).map (fun x => x && cond_pe_buy pe_val)

/-- Source: `sell_signal = cond_rsi_sell & macd_cross_down & cond_close_above_ma & cond_pe_sell`. -/
def sell_signal_col (df : List IndRow) (pe_val : Option ℚ) : List Bool :=
  (colAnd (colAnd (cond_rsi_sell_col df) (macd_cross_down_col df))
      (cond_close_above_ma_col df)).map (fun x => x && cond_pe_sell pe_val)

/-- Source: `generate_signals(df, pe_val)` viewed as a pure frame transformer: the
input rows with the two signal columns attached (the in-place aspect of the
Python assignment is modelled separately by `generate_signalsH`). -/
def generate_signals (df : List IndRow) (pe_val : Option ℚ) : List SigRow :=
  List.zipWith (fun r bs => { toIndRow := r, buySignal := bs.1, sellSignal := bs.2 })
    df ((buy_signal_col df pe_val).zip (sell_signal_col df pe_val))

/-! ## compute_indicators

`compute_indicators` builds the indicator frame from the close series.  The
RSI and MACD family are produced by the external `ta` library (an excluded
collaborator), so they enter the embedding as parameters; the `MA200` column
is pandas `close.rolling(window=MA_PERIOD, min_periods=1).mean()`, embedded
below. -/

/-- Pandas `Series.rolling(window=w, min_periods=minp).mean()`: at index `i`
the window is the trailing `min (i+1) w` values; the cell is their mean when
at least `minp` values are available and `NaN` otherwise. -/
def rollingMean (w minp : Nat) (xs : List ℚ) : List (Option ℚ) :=
  (List.range xs.length).map (fun i =>
    let win := (xs.take (i + 1)).drop (i + 1 - w)
    if minp ≤ win.length then some (win.sum / (win.length : ℚ)) else none)

/-- The indicator outputs of the external `ta` library for one close series:
`RSIIndicator(close, window=14).rsi()` and the three `MACD` series.  The
library is outside the repository, so these are abstract series producers;
every theorem below holds for an arbitrary `TaLib`. -/
structure TaLib where
  rsiF : List ℚ → List (Option ℚ)
  macdF : List ℚ → List (Option ℚ)
  macdSigF : List ℚ → List (Option ℚ)
  macdDiffF : List ℚ → List (Option ℚ)

/-- Cell access into an indicator column; out-of-range reads as `NaN`. -/
def cellO (xs : List (Option ℚ)) (i : Nat) : Option ℚ := (xs[i]?).getD none

/-- Source: `compute_indicators(df)`: assembles the frame
`{Close, RSI, MACD, MACD_signal, MACD_diff, MA200}` row by row over the
index of the close series. -/
def compute_indicators (lib : TaLib) (close : List ℚ) : List IndRow :=
  let rsi := lib.rsiF close
  let macd := lib.macdF close
  let macd_signal := lib.macdSigF close
  let macd_diff := lib.macdDiffF close
  let ma200 := rollingMean MA_PERIOD 1 close
  (List.range close.length).map (fun i =>
    { close := (close[i]?).getD 0
      rsi := cellO rsi i
      macd := cellO macd i
      macd_signal := cellO macd_signal i
      macd_diff := cellO macd_diff i
      ma200 := cellO ma200 i })

/-! ## simulate_trades -/

/-- One trade record, mirroring the Python dict
`{buy_date, buy_price, sell_date, sell_price, profit_pct}`.  Dates are the
positions of the rows in the frame (the walk is in index order). -/
structure Trade where
  buy_date : Nat
  buy_price : ℚ
  sell_date : Option Nat
  sell_price : Option ℚ
  profit_pct : Option ℚ
deriving DecidableEq

/-- A freshly opened position: `{"buy_date": dt, "buy_price": close}`; the
exit fields are absent, i.e. the Python end-of-loop fix-up that writes
explicit `None` into them is representationally the identity here. -/
def openTrade (dt : Nat) (price : ℚ) : Trade :=
  ⟨dt, price, none, none, none⟩

/-- Close a trade at `(dt, price)`:
`profit_pct = (sell_price - buy_price) / buy_price * 100`. -/
def closeTrade (dt : Nat) (price : ℚ) (tr : Trade) : Trade :=
  { tr with sell_date := some dt, sell_price := some price
            profit_pct := some ((price - tr.buy_price) / tr.buy_price * 100) }

/-- Update the final element of a list (the Python `position` dict is the
object last appended to `trades`, so mutating it mutates `trades[-1]`). -/
def updateFinal (f : Trade → Trade) : List Trade → List Trade
  | [] => []
  | [x] => [f x]
  | x :: y :: xs => x :: updateFinal f (y :: xs)

/-- The loop of `simulate_trades`, walking `(index, row)` pairs with the
accumulated `trades` list and the open `position` (its entry date/price). -/
def simGo (trades : List Trade) (position : Option (Nat × ℚ)) :
    List (Nat × SigRow) → List Trade × Option (Nat × ℚ)
  | [] => (trades, position)
  | (dt, row) :: rest =>
    if row.buySignal && position.isNone then
      simGo (trades ++ [openTrade dt row.close]) (some (dt, row.close)) rest
    else if row.sellSignal && position.isSome then
      simGo (updateFinal (closeTrade dt row.close) trades) none rest
    else
      simGo trades position rest

/-- Source: `simulate_trades(df)`: the trades accumulated by the walk.  The final
Python fix-up writes `None` exit fields into a still-open position, which is
already how an open `Trade` is represented here. -/
def simulate_trades (df : List SigRow) : List Trade :=
  (simGo [] none df.enum).1

/-! ## The notification-path analysis (`analyze_etf`, `daily_check`) -/

/-- Python `round(x, nd)` on the exact rational value: round half to even at
the `nd`-th decimal place. -/
def roundHalfEven (y : ℚ) : ℤ :=
  let n : ℤ := ⌊y⌋
  let frac := y - (n : ℚ)
  if frac < 1 / 2 then n
  else if 1 / 2 < frac then n + 1
  else if n % 2 = 0 then n else n + 1

def round2 (x : ℚ) : ℚ := ((roundHalfEven (x * 100) : ℤ) : ℚ) / 100

def round4 (x : ℚ) : ℚ := ((roundHalfEven (x * 10000) : ℤ) : ℚ) / 10000

/-- The buy-signal dict returned by `analyze_etf`; `date` is the row index
standing for the timestamp `today.name`. -/
structure BuyAlert where
  ticker : String
  price : ℚ
  rsi : ℚ
  macd : ℚ
  macd_signal : ℚ
  date : Nat
deriving DecidableEq

/-- Source: `analyze_etf(ticker)`.  `dl` is the materialized result of
`yf.download(ticker, ...)` (the network is an excluded collaborator); an
empty list is pandas `data.empty`.  The body follows `main.py` lines 34-75:
compute indicators, require two rows, require the RSI/MACD/signal of the final row to be
non-`NaN`, then fire on a strict MACD cross
(`yesterday.MACD < yesterday.MACD_signal and today.MACD > today.MACD_signal`)
together with `today.RSI < RSI_BUY`. -/
def analyze_etf (dl : String → List ℚ) (lib : TaLib) (ticker : String) : Option BuyAlert :=
  let data := dl ticker
  if data.isEmpty then none
  else
    let ind := compute_indicators lib data
    if ind.length < 2 then none
    else
      match ind[ind.length - 1]?, ind[ind.length - 2]? with
      | some today, some yesterday =>
        match today.rsi, today.macd, today.macd_signal with
        | some trsi, some tmacd, some tsig =>
          let macd_cross := oLT yesterday.macd yesterday.macd_signal && decide (tsig < tmacd)
          let rsi_buy := decide (trsi < RSI_BUY)
          if macd_cross && rsi_buy then
            some ⟨ticker, round2 today.close, round2 trsi, round4 tmacd, round4 tsig,
              ind.length - 1⟩
          else none
        | _, _, _ => none
      | _, _ => none

/-- The list of buy signals collected by the loop of `daily_check` (the
Slack digest is generated from exactly this list). -/
def daily_check_signals (dl : String → List ℚ) (lib : TaLib) (tickers : List String) :
    List BuyAlert :=
  tickers.filterMap (analyze_etf dl lib)

/-! ## The report path (`fetch_price_df`, `second_check`) -/

/-- Source: `ETF_LIST` from `main.py`. -/
def ETF_LIST : List String :=
  ["VOO", "SPY", "VTI", "ARKK", "AAPL", "MSFT", "GOOG", "TSLA",
   "DXCM", "NVDA", "AXP", "ISRG", "COST", "ASML", "AMZN", "META",
   "QQQ", "QQQM", "SCHD", "UNH", "AMD", "TSM", "JPM", "DIS", "T",
   "PYPL", "TDOC"]

/-- Source: `fetch_price_df(ticker)`: raises `SystemExit` (modelled as
`Except.error`) when the downloaded frame is empty. -/
def fetch_price_df (dl : String → List ℚ) (ticker : String) : Except String (List ℚ) :=
  let df := dl ticker
  if df.isEmpty then Except.error ("No data downloaded for " ++ ticker)
  else Except.ok df

/-- One summary row appended by `second_check`. -/
structure Summary where
  ticker : String
  pe : Option ℚ
  latest_close : ℚ
  ma200 : ℚ
  buy_signal_today : Bool
  sell_signal_today : Bool
  recommended_buy_price : ℚ
deriving DecidableEq

/-- The per-ticker body of the `second_check` loop: fetch (which may abort
the whole run), compute indicators, fetch the PE ratio (`peF`, the external
valuation source), generate signals, simulate trades (written to a CSV sink),
and build the summary row from the final frame row. -/
def process_ticker (dl : String → List ℚ) (lib : TaLib) (peF : String → Option ℚ)
    (ticker : String) : Except String Summary := do
  let raw ← fetch_price_df dl ticker
  let df0 := compute_indicators lib raw
  let pe_val := peF ticker
  let df := generate_signals df0 pe_val
  let _trades := simulate_trades df
  match df.getLast? with
  | none => Except.error ("index error for " ++ ticker)
  | some last =>
    let latest_close := last.close
    let latest_ma200 := (last.ma200).getD 0
    let recommended_buy_price := min latest_ma200 (latest_close * (97 / 100))
    Except.ok
      { ticker := ticker
        pe := pe_val
        latest_close := round2 latest_close
        ma200 := round2 latest_ma200
        buy_signal_today := last.buySignal
        sell_signal_today := last.sellSignal
        recommended_buy_price := round2 recommended_buy_price }

/-- Source: `second_check()` over a ticker universe: the summary list, or the
uncaught `SystemExit` of the first failing fetch (nothing in the loop
catches it, so it aborts the whole run). -/
def second_check (dl : String → List ℚ) (lib : TaLib) (peF : String → Option ℚ) :
    List String → Except String (List Summary)
  | [] => Except.ok []
  | t :: rest => do
    let s ← process_ticker dl lib peF t
    let others ← second_check dl lib peF rest
    Except.ok (s :: others)

/-! ## Heap model for in-place column assignment

`generate_signals` ends with `df["Buy_Signal"] = buy_signal` and
`df["Sell_Signal"] = sell_signal` followed by `return df`: it writes two new
columns into the DataFrame object it was handed and returns that same object.
To talk about object identity we model DataFrame objects in a small heap of
frames addressed by `Nat` references. -/

/-- A DataFrame object: the indicator columns, plus the `Buy_Signal` and
`Sell_Signal` columns once (and only once) they have been assigned. -/
structure PyFrame where
  rows : List IndRow
  buyColumn : Option (List Bool)
  sellColumn : Option (List Bool)
deriving DecidableEq

abbrev Heap := List PyFrame

/-- Source: `compute_indicators` allocates a fresh frame object and returns a
reference to it. -/
def compute_indicatorsH (h : Heap) (lib : TaLib) (close : List ℚ) : Heap × Nat :=
  (h ++ [⟨compute_indicators lib close, none, none⟩], h.length)

/-- Source: `generate_signals(df, pe_val)` at the object level: computes the two
signal columns from the rows of the frame behind `r`, stores them into that
same object, and returns the same reference. -/
def generate_signalsH (h : Heap) (r : Nat) (pe_val : Option ℚ) : Heap × Nat :=
  match h[r]? with
  | none => (h, r)
  | some fr =>
    (h.set r ⟨fr.rows, some (buy_signal_col fr.rows pe_val),
        some (sell_signal_col fr.rows pe_val)⟩, r)

/-- Read the signal frame rows out of a frame object (missing signal columns
read as everywhere-false, which never happens on the path the pipeline takes). -/
def sigRowsOf (fr : PyFrame) : List SigRow :=
  List.zipWith (fun r bs => { toIndRow := r, buySignal := bs.1, sellSignal := bs.2 })
    fr.rows (((fr.buyColumn).getD []).zip ((fr.sellColumn).getD []))

/-- Source: `simulate_trades(df)` at the object level: reads the frame behind `r`
and returns the trades; no heap cell is written. -/
def simulate_tradesH (h : Heap) (r : Nat) : Heap × List Trade :=
  match h[r]? with
  | none => (h, [])
  | some fr => (h, simulate_trades (sigRowsOf fr))

/-! ## Specification-side definitions

These definitions are written from the words of the specification (not from
the source); the theorems below compare the source embeddings against them. -/

/-- The MACD value of the previous row as the signal rule sees it: `NaN` at the
first timestamp, where no previous row exists. -/
def prevMacd (df : List IndRow) (t : Nat) : Option ℚ :=
  if t = 0 then none else (df[t - 1]?).bind (fun r => r.macd)

/-- The MACD-signal value of the previous row, `NaN` at the first timestamp. -/
def prevSig (df : List IndRow) (t : Nat) : Option ℚ :=
  if t = 0 then none else (df[t - 1]?).bind (fun r => r.macd_signal)

/-- Spec: MACD crossed up at `t`, i.e. `MACD[t] > Signal[t]` and
`MACD[t-1] <= Signal[t-1]`, all four values being defined (there is no
previous value at `t = 0`). -/
def MacdCrossedUpSpec (df : List IndRow) (t : Nat) : Prop :=
  (∃ r m s, df[t]? = some r ∧ r.macd = some m ∧ r.macd_signal = some s ∧ s < m) ∧
  (∃ mp sp, prevMacd df t = some mp ∧ prevSig df t = some sp ∧ mp ≤ sp)

/-- Spec: MACD crossed down at `t`, i.e. `MACD[t] < Signal[t]` and
`MACD[t-1] >= Signal[t-1]`. -/
def MacdCrossedDownSpec (df : List IndRow) (t : Nat) : Prop :=
  (∃ r m s, df[t]? = some r ∧ r.macd = some m ∧ r.macd_signal = some s ∧ m < s) ∧
  (∃ mp sp, prevMacd df t = some mp ∧ prevSig df t = some sp ∧ sp ≤ mp)

/-- Spec: the Buy rule -- `RSI[t] < RSI_BUY` and MACD crossed up and
`Close[t] < MovingAverage[t]` and (valuation unavailable or below the
ceiling). -/
def BuySpec (df : List IndRow) (pe_val : Option ℚ) (t : Nat) : Prop :=
  (∃ r x, df[t]? = some r ∧ r.rsi = some x ∧ x < RSI_BUY) ∧
  MacdCrossedUpSpec df t ∧
  (∃ r a, df[t]? = some r ∧ r.ma200 = some a ∧ r.close < a) ∧
  (pe_val = none ∨ ∃ v, pe_val = some v ∧ v < PE_BUY_MAX)

/-- Spec: the Sell rule -- `RSI[t] > RSI_SELL` and MACD crossed down and
`Close[t] > MovingAverage[t]` and (valuation unavailable or above the
ceiling). -/
def SellSpec (df : List IndRow) (pe_val : Option ℚ) (t : Nat) : Prop :=
  (∃ r x, df[t]? = some r ∧ r.rsi = some x ∧ RSI_SELL < x) ∧
  MacdCrossedDownSpec df t ∧
  (∃ r a, df[t]? = some r ∧ r.ma200 = some a ∧ a < r.close) ∧
  (pe_val = none ∨ ∃ v, pe_val = some v ∧ PE_BUY_MAX < v)

/-- Spec: the trade opened at `(dt, price)`, completed by the exit event if
one exists -- realized return `(exit - entry) / entry * 100` -- and left
open (exit fields undefined) otherwise. -/
def completeTrade (dt : Nat) (price : ℚ) : Option (Nat × ℚ) → Trade
  | none => ⟨dt, price, none, none, none⟩
  | some (sd, sp) => ⟨dt, price, some sd, some sp, some ((sp - price) / price * 100)⟩

/-- Spec-level trade simulator, the explicit two-state machine of the
specification: the state is Flat (`none`) or Long with the entry point
(`some (dt, price)`).  Walking the frame in timestamp order: while Flat, a
Buy row opens a position at the close of that row and Sell is ignored; while
Long, a Sell row emits the closed trade with realized return
`(exit - entry) / entry * 100` and returns to Flat, Buy being ignored and no
same-step re-entry happening (exactly one transition is possible per row).
A position still open at the end of the series is emitted with its exit
fields undefined. -/
def specTrades : Option (Nat × ℚ) → List (Nat × SigRow) → List Trade
  | none, [] => []
  | some (dt, price), [] => [completeTrade dt price none]
  | none, (dt, row) :: rest =>
    if row.buySignal then specTrades (some (dt, row.close)) rest
    else specTrades none rest
  | some (dt, price), (sd, row) :: rest =>
    if row.sellSignal then
      completeTrade dt price (some (sd, row.close)) :: specTrades none rest
    else specTrades (some (dt, price)) rest

/-- Spec: the simulator invariant tying the `position` register to the
accumulated trades: with no open position every recorded trade is closed;
with an open position the trade list is the closed trades followed by
exactly the one open trade. -/
def SimInv : List Trade × Option (Nat × ℚ) → Prop
  | (trades, none) => ∀ tr ∈ trades, tr.sell_date.isSome = true
  | (trades, some (dt, price)) =>
    ∃ done, trades = done ++ [openTrade dt price] ∧ ∀ tr ∈ done, tr.sell_date.isSome = true

/-- Error projection of a run outcome (used to state that a run aborted). -/
def exceptErrOf : Except String (List Summary) → Option String
  | Except.error e => some e
  | Except.ok _ => none

/-! ## Concrete data used by witnesses and counterexamples -/

/-- A two-row indicator frame on which the Buy rule fires at `t = 1`:
RSI below 40, MACD crossing up, close below the moving average. -/
def dfBuyW : List IndRow :=
  [⟨10, some 30, some 1, some 2, none, some 10⟩,
   ⟨9, some 30, some 3, some 2, none, some 11⟩]

/-- A two-row indicator frame whose second row has an undefined RSI. -/
def dfNaW : List IndRow :=
  [⟨10, some 30, some 1, some 2, none, some 10⟩,
   ⟨9, none, some 3, some 2, none, some 11⟩]

/-- A signal frame consisting of one Buy row: the simulator opens a trade
and the series ends with the position still open. -/
def dfOpenW : List SigRow :=
  [⟨⟨10, none, none, none, none, none⟩, true, false⟩,
   ⟨⟨11, none, none, none, none, none⟩, false, false⟩]

/-- A `ta` stub used by concrete runs: two defined RSI values below 40 and a
MACD pair crossing up strictly between the two rows. -/
def libC : TaLib :=
  ⟨fun _ => [some 30, some 30], fun _ => [some 1, some 3],
   fun _ => [some 2, some 2], fun _ => [none, none]⟩

/-- A two-point close series that rises above its running moving average. -/
def closeC : List ℚ := [10, 12]

/-- A price source returning `closeC` for every ticker. -/
def dlC : String → List ℚ := fun _ => closeC

/-- A price source with no data for VOO and a two-point series otherwise. -/
def dlE : String → List ℚ := fun t => if t = "VOO" then [] else closeC

/-- The indicator frame `compute_indicators libC closeC` evaluates to these
two rows (proved below). -/
def rowsC : List IndRow :=
  [⟨10, some 30, some 1, some 2, none, some 10⟩,
   ⟨12, some 30, some 3, some 2, none, some 11⟩]

/-- A one-point close series for moving-average witnesses. -/
def closeW : List ℚ := [5]

/-- A one-frame heap holding the indicator rows of `dfBuyW`. -/
def heapW : Heap := [⟨dfBuyW, none, none⟩]

/-- Spec: the exact condition under which the notification path reports a
buy for a ticker -- at least two indicator rows, the RSI, MACD and MACD
signal all defined, RSI below `RSI_BUY`, MACD strictly above its signal
today and strictly below it yesterday. -/
def AnalyzeBuySpec (dl : String → List ℚ) (lib : TaLib) (ticker : String) : Prop :=
  2 ≤ (compute_indicators lib (dl ticker)).length ∧
  ∃ (today yd : IndRow) (trsi tmacd tsig : ℚ),
    (compute_indicators lib (dl ticker))[(compute_indicators lib (dl ticker)).length - 1]? =
      some today ∧
    (compute_indicators lib (dl ticker))[(compute_indicators lib (dl ticker)).length - 2]? =
      some yd ∧
    today.rsi = some trsi ∧ today.macd = some tmacd ∧ today.macd_signal = some tsig ∧
    trsi < RSI_BUY ∧ tsig < tmacd ∧
    ∃ ym ys, yd.macd = some ym ∧ yd.macd_signal = some ys ∧ ym < ys

/-! # Theorems -/

/-! ## Bridges between the pandas boolean comparisons and propositions -/

lemma oLT_eq_true_iff {a b : Option ℚ} :
    oLT a b = true ↔ ∃ x y, a = some x ∧ b = some y ∧ x < y := by
  cases a <;> cases b <;> simp [oLT]

lemma oLE_eq_true_iff {a b : Option ℚ} :
    oLE a b = true ↔ ∃ x y, a = some x ∧ b = some y ∧ x ≤ y := by
  cases a <;> cases b <;> simp [oLE]

lemma oGT_eq_true_iff {a b : Option ℚ} :
    oGT a b = true ↔ ∃ x y, a = some x ∧ b = some y ∧ y < x := by
  cases a <;> cases b <;> simp [oGT]

lemma oGE_eq_true_iff {a b : Option ℚ} :
    oGE a b = true ↔ ∃ x y, a = some x ∧ b = some y ∧ y ≤ x := by
  cases a <;> cases b <;> simp [oGE]

/-! ## Cell-level view of the vectorized column operations -/

lemma zipWith_cell {α β γ : Type} (f : α → β → γ) {a : List α} {b : List β} {i : Nat}
    {x : α} {y : β} (hx : a[i]? = some x) (hy : b[i]? = some y) :
    (List.zipWith f a b)[i]? = some (f x y) := by
  simp [List.getElem?_zipWith, hx, hy]

lemma map_cell {α β : Type} (f : α → β) {a : List α} {i : Nat} {x : α}
    (hx : a[i]? = some x) : (a.map f)[i]? = some (f x) := by
  simp [List.getElem?_map, hx]

lemma colRSI_cell {df : List IndRow} {t : Nat} {r : IndRow} (h : df[t]? = some r) :
    (colRSI df)[t]? = some r.rsi := map_cell _ h

lemma colMACD_cell {df : List IndRow} {t : Nat} {r : IndRow} (h : df[t]? = some r) :
    (colMACD df)[t]? = some r.macd := map_cell _ h

lemma colSig_cell {df : List IndRow} {t : Nat} {r : IndRow} (h : df[t]? = some r) :
    (colSig df)[t]? = some r.macd_signal := map_cell _ h

lemma colClose_cell {df : List IndRow} {t : Nat} {r : IndRow} (h : df[t]? = some r) :
    (colClose df)[t]? = some r.close := map_cell _ h

lemma colMA_cell {df : List IndRow} {t : Nat} {r : IndRow} (h : df[t]? = some r) :
    (colMA df)[t]? = some r.ma200 := map_cell _ h

/-- The cell of a shifted column: `NaN` at index 0, the previous cell
afterwards. -/
lemma shift1_cell {xs : List (Option ℚ)} {t : Nat} (ht : t < xs.length) :
    (shift1 xs)[t]? = some (if t = 0 then none else (xs[t - 1]?).getD none) := by
  have hne : xs ≠ [] := by
    intro h
    rw [h] at ht
    simp at ht
  rw [shift1, if_neg hne]
  cases t with
  | zero => simp
  | succ k =>
    have hk : k < xs.length - 1 := by omega
    have hk2 : k < xs.length := by omega
    simp [List.getElem?_dropLast, hk, List.getElem?_eq_getElem hk2]

lemma shift1_colMACD_cell {df : List IndRow} {t : Nat} (ht : t < df.length) :
    (shift1 (colMACD df))[t]? = some (prevMacd df t) := by
  have hlen : (colMACD df).length = df.length := by simp [colMACD]
  rw [shift1_cell (by omega), prevMacd]
  rcases Nat.eq_zero_or_pos t with h0 | hpos
  · simp [h0]
  · have ht1 : t - 1 < df.length := by omega
    have := @colMACD_cell df (t - 1) _ (List.getElem?_eq_getElem ht1)
    simp [Nat.pos_iff_ne_zero.mp hpos, this, List.getElem?_eq_getElem ht1]

lemma shift1_colSig_cell {df : List IndRow} {t : Nat} (ht : t < df.length) :
    (shift1 (colSig df))[t]? = some (prevSig df t) := by
  have hlen : (colSig df).length = df.length := by simp [colSig]
  rw [shift1_cell (by omega), prevSig]
  rcases Nat.eq_zero_or_pos t with h0 | hpos
  · simp [h0]
  · have ht1 : t - 1 < df.length := by omega
    have := @colSig_cell df (t - 1) _ (List.getElem?_eq_getElem ht1)
    simp [Nat.pos_iff_ne_zero.mp hpos, this, List.getElem?_eq_getElem ht1]

/-- Cell-level value of the vectorized `macd_cross_up` column. -/
lemma macd_cross_up_cell {df : List IndRow} {t : Nat} {r : IndRow}
    (ht : t < df.length) (hr : df[t]? = some r) :
    (macd_cross_up_col df)[t]? =
      some (oGT r.macd r.macd_signal && oLE (prevMacd df t) (prevSig df t)) := by
  rw [macd_cross_up_col, colAnd]
  exact zipWith_cell _ (zipWith_cell _ (colMACD_cell hr) (colSig_cell hr))
    (zipWith_cell _ (shift1_colMACD_cell ht) (shift1_colSig_cell ht))

/-- Cell-level value of the vectorized `macd_cross_down` column. -/
lemma macd_cross_down_cell {df : List IndRow} {t : Nat} {r : IndRow}
    (ht : t < df.length) (hr : df[t]? = some r) :
    (macd_cross_down_col df)[t]? =
      some (oLT r.macd r.macd_signal && oGE (prevMacd df t) (prevSig df t)) := by
  rw [macd_cross_down_col, colAnd]
  exact zipWith_cell _ (zipWith_cell _ (colMACD_cell hr) (colSig_cell hr))
    (zipWith_cell _ (shift1_colMACD_cell ht) (shift1_colSig_cell ht))

/-- Cell-level value of the vectorized `buy_signal` column. -/
lemma buy_signal_cell {df : List IndRow} {pe_val : Option ℚ} {t : Nat} {r : IndRow}
    (ht : t < df.length) (hr : df[t]? = some r) :
    (buy_signal_col df pe_val)[t]? =
      some (((oLT r.rsi (some RSI_BUY) &&
          (oGT r.macd r.macd_signal && oLE (prevMacd df t) (prevSig df t))) &&
          oLT (some r.close) r.ma200) && cond_pe_buy pe_val) := by
  rw [buy_signal_col]
  refine map_cell _ ?_
  rw [colAnd, colAnd]
  refine zipWith_cell _ (zipWith_cell _ ?_ (macd_cross_up_cell ht hr)) ?_
  · exact map_cell _ (colRSI_cell hr)
  · exact zipWith_cell _ (colClose_cell hr) (colMA_cell hr)

/-- Cell-level value of the vectorized `sell_signal` column. -/
lemma sell_signal_cell {df : List IndRow} {pe_val : Option ℚ} {t : Nat} {r : IndRow}
    (ht : t < df.length) (hr : df[t]? = some r) :
    (sell_signal_col df pe_val)[t]? =
      some (((oGT r.rsi (some RSI_SELL) &&
          (oLT r.macd r.macd_signal && oGE (prevMacd df t) (prevSig df t))) &&
          oGT (some r.close) r.ma200) && cond_pe_sell pe_val) := by
  rw [sell_signal_col]
  refine map_cell _ ?_
  rw [colAnd, colAnd]
  refine zipWith_cell _ (zipWith_cell _ ?_ (macd_cross_down_cell ht hr)) ?_
  · exact map_cell _ (colRSI_cell hr)
  · exact zipWith_cell _ (colClose_cell hr) (colMA_cell hr)

/-- Row-level view of `generate_signals`: row `t` of the output is row `t`
of the input together with the `t`-th cells of the two signal columns. -/
lemma generate_signals_cell {df : List IndRow} {pe_val : Option ℚ} {t : Nat} {r : IndRow}
    (hr : df[t]? = some r) {b s : Bool}
    (hb : (buy_signal_col df pe_val)[t]? = some b)
    (hs : (sell_signal_col df pe_val)[t]? = some s) :
    (generate_signals df pe_val)[t]? = some ⟨r, b, s⟩ := by
  have hpair : ((buy_signal_col df pe_val).zip (sell_signal_col df pe_val))[t]? =
      some (b, s) := by
    rw [List.zip]
    exact zipWith_cell _ hb hs
  rw [generate_signals]
  exact zipWith_cell
    (fun (r : IndRow) (bs : Bool × Bool) =>
      ({ toIndRow := r, buySignal := bs.1, sellSignal := bs.2 } : SigRow)) hr hpair

/-! ## The signal rule (C1, C7, C9) -/

lemma cond_pe_buy_iff {pe_val : Option ℚ} :
    cond_pe_buy pe_val = true ↔ pe_val = none ∨ ∃ v, pe_val = some v ∧ v < PE_BUY_MAX := by
  cases pe_val <;> simp [cond_pe_buy]

lemma cond_pe_sell_iff {pe_val : Option ℚ} :
    cond_pe_sell pe_val = true ↔ pe_val = none ∨ ∃ v, pe_val = some v ∧ PE_BUY_MAX < v := by
  cases pe_val <;> simp [cond_pe_sell]

/-- The buy cell formula is equivalent to the Buy rule as the specification
states it. -/
lemma buy_flag_iff_spec {df : List IndRow} {pe_val : Option ℚ} {t : Nat} {r : IndRow}
    (hr : df[t]? = some r) :
    (((oLT r.rsi (some RSI_BUY) &&
        (oGT r.macd r.macd_signal && oLE (prevMacd df t) (prevSig df t))) &&
        oLT (some r.close) r.ma200) && cond_pe_buy pe_val) = true ↔
      BuySpec df pe_val t := by
  rw [BuySpec, MacdCrossedUpSpec]
  simp only [Bool.and_eq_true, oLT_eq_true_iff, oGT_eq_true_iff, oLE_eq_true_iff,
    cond_pe_buy_iff]
  constructor
  · rintro ⟨⟨⟨⟨x, y, hx, hy, hxy⟩, ⟨m, s, hm, hs, hsm⟩, ⟨mp, sp, hmp, hsp, hle⟩⟩,
      ⟨c, a, hc, ha, hca⟩⟩, hpe⟩
    cases hy
    cases hc
    exact ⟨⟨r, x, hr, hx, hxy⟩, ⟨⟨r, m, s, hr, hm, hs, hsm⟩, mp, sp, hmp, hsp, hle⟩,
      ⟨r, a, hr, ha, hca⟩, hpe⟩
  · rintro ⟨⟨r1, x, hr1, hx, hxy⟩, ⟨⟨r2, m, s, hr2, hm, hs, hsm⟩, mp, sp, hmp, hsp, hle⟩,
      ⟨r3, a, hr3, ha, hca⟩, hpe⟩
    rw [hr] at hr1 hr2 hr3
    cases hr1
    cases hr2
    cases hr3
    exact ⟨⟨⟨⟨x, RSI_BUY, hx, rfl, hxy⟩, ⟨m, s, hm, hs, hsm⟩, mp, sp, hmp, hsp, hle⟩,
      r.close, a, rfl, ha, hca⟩, hpe⟩

/-- The sell cell formula is equivalent to the Sell rule as the
specification states it. -/
lemma sell_flag_iff_spec {df : List IndRow} {pe_val : Option ℚ} {t : Nat} {r : IndRow}
    (hr : df[t]? = some r) :
    (((oGT r.rsi (some RSI_SELL) &&
        (oLT r.macd r.macd_signal && oGE (prevMacd df t) (prevSig df t))) &&
        oGT (some r.close) r.ma200) && cond_pe_sell pe_val) = true ↔
      SellSpec df pe_val t := by
  rw [SellSpec, MacdCrossedDownSpec]
  simp only [Bool.and_eq_true, oLT_eq_true_iff, oGT_eq_true_iff, oGE_eq_true_iff,
    cond_pe_sell_iff]
  constructor
  · rintro ⟨⟨⟨⟨x, y, hx, hy, hxy⟩, ⟨m, s, hm, hs, hsm⟩, ⟨mp, sp, hmp, hsp, hle⟩⟩,
      ⟨c, a, hc, ha, hca⟩⟩, hpe⟩
    cases hy
    cases hc
    exact ⟨⟨r, x, hr, hx, hxy⟩, ⟨⟨r, m, s, hr, hm, hs, hsm⟩, mp, sp, hmp, hsp, hle⟩,
      ⟨r, a, hr, ha, hca⟩, hpe⟩
  · rintro ⟨⟨r1, x, hr1, hx, hxy⟩, ⟨⟨r2, m, s, hr2, hm, hs, hsm⟩, mp, sp, hmp, hsp, hle⟩,
      ⟨r3, a, hr3, ha, hca⟩, hpe⟩
    rw [hr] at hr1 hr2 hr3
    cases hr1
    cases hr2
    cases hr3
    exact ⟨⟨⟨⟨x, RSI_SELL, hx, rfl, hxy⟩, ⟨m, s, hm, hs, hsm⟩, mp, sp, hmp, hsp, hle⟩,
      r.close, a, rfl, ha, hca⟩, hpe⟩

/-- C1: for every indicator frame and optional valuation ratio, row `t` of
the signal frame has its Buy flag set exactly when RSI is below 40, MACD
crossed up, close is below the moving average, and the valuation is absent
or below 25; and its Sell flag set exactly when RSI is above 70, MACD
crossed down, close is above the moving average, and the valuation is
absent or above 25. -/
theorem C1_signal_rule (df : List IndRow) (pe_val : Option ℚ) (t : Nat)
    (ht : t < df.length) :
    ∃ sr : SigRow, (generate_signals df pe_val)[t]? = some sr ∧
      (sr.buySignal = true ↔ BuySpec df pe_val t) ∧
      (sr.sellSignal = true ↔ SellSpec df pe_val t) := by
  have hr : df[t]? = some (df.get ⟨t, ht⟩) := List.getElem?_eq_getElem ht
  refine ⟨_, generate_signals_cell hr (buy_signal_cell ht hr) (sell_signal_cell ht hr), ?_, ?_⟩
  · exact buy_flag_iff_spec hr
  · exact sell_flag_iff_spec hr

/-- Witness for C1 at a concrete frame: at `t = 1` of `dfBuyW` with the
valuation unavailable. -/
theorem C1_signal_rule_witness :
    1 < dfBuyW.length ∧
    ∃ sr : SigRow, (generate_signals dfBuyW none)[1]? = some sr ∧
      (sr.buySignal = true ↔ BuySpec dfBuyW none 1) ∧
      (sr.sellSignal = true ↔ SellSpec dfBuyW none 1) :=
  ⟨by decide, C1_signal_rule dfBuyW none 1 (by decide)⟩

lemma oLT_none_right {a : Option ℚ} : oLT a none = false := by cases a <;> rfl

lemma oLT_none_left {b : Option ℚ} : oLT none b = false := by cases b <;> rfl

lemma oLE_none_left {b : Option ℚ} : oLE none b = false := by cases b <;> rfl

lemma oGT_none_right {a : Option ℚ} : oGT a none = false := by cases a <;> rfl

lemma oGT_none_left {b : Option ℚ} : oGT none b = false := by cases b <;> rfl

lemma oGE_none_left {b : Option ℚ} : oGE none b = false := by cases b <;> rfl

/-- C7: both flags are false at the first timestamp, and both are false at
any timestamp where RSI, MACD, the MACD signal, or the moving average is
undefined. -/
theorem C7_boundary_and_nan (df : List IndRow) (pe_val : Option ℚ) (t : Nat)
    (ht : t < df.length) (r : IndRow) (hr : df[t]? = some r)
    (hcase : t = 0 ∨ r.rsi = none ∨ r.macd = none ∨ r.macd_signal = none ∨ r.ma200 = none) :
    ∃ sr : SigRow, (generate_signals df pe_val)[t]? = some sr ∧
      sr.buySignal = false ∧ sr.sellSignal = false := by
  refine ⟨_, generate_signals_cell hr (buy_signal_cell ht hr) (sell_signal_cell ht hr), ?_, ?_⟩
  · show (((oLT r.rsi (some RSI_BUY) &&
        (oGT r.macd r.macd_signal && oLE (prevMacd df t) (prevSig df t))) &&
        oLT (some r.close) r.ma200) && cond_pe_buy pe_val) = false
    rcases hcase with h0 | hn | hn | hn | hn
    · have : prevMacd df t = none := by simp [prevMacd, h0]
      simp [this, oLE_none_left]
    · simp [hn, oLT_none_left]
    · simp [hn, oGT_none_left]
    · simp [hn, oGT_none_right]
    · simp [hn, oLT_none_right]
  · show (((oGT r.rsi (some RSI_SELL) &&
        (oLT r.macd r.macd_signal && oGE (prevMacd df t) (prevSig df t))) &&
        oGT (some r.close) r.ma200) && cond_pe_sell pe_val) = false
    rcases hcase with h0 | hn | hn | hn | hn
    · have : prevMacd df t = none := by simp [prevMacd, h0]
      simp [this, oGE_none_left]
    · simp [hn, oGT_none_left]
    · simp [hn, oLT_none_left]
    · simp [hn, oLT_none_right]
    · simp [hn, oGT_none_right]

/-- Witness for C7 at a concrete frame: row 1 of `dfNaW` has an undefined
RSI, and additionally row 0 is the boundary case. -/
theorem C7_boundary_and_nan_witness :
    (1 < dfNaW.length ∧
      ∃ sr : SigRow, (generate_signals dfNaW none)[1]? = some sr ∧
        sr.buySignal = false ∧ sr.sellSignal = false) ∧
    (0 < dfNaW.length ∧
      ∃ sr : SigRow, (generate_signals dfNaW none)[0]? = some sr ∧
        sr.buySignal = false ∧ sr.sellSignal = false) :=
  ⟨⟨by decide, C7_boundary_and_nan dfNaW none 1 (by decide)
      ⟨9, none, some 3, some 2, none, some 11⟩ (by decide) (Or.inr (Or.inl rfl))⟩,
   ⟨by decide, C7_boundary_and_nan dfNaW none 0 (by decide)
      ⟨10, some 30, some 1, some 2, none, some 10⟩ (by decide) (Or.inl rfl)⟩⟩

/-- C9: the two crossover columns are never simultaneously true, and hence
the Buy and Sell flags are never simultaneously true. -/
theorem C9_mutual_exclusion (df : List IndRow) (pe_val : Option ℚ) (t : Nat)
    (ht : t < df.length) :
    ∃ cu cd : Bool, (macd_cross_up_col df)[t]? = some cu ∧
      (macd_cross_down_col df)[t]? = some cd ∧ (cu && cd) = false ∧
      ∃ sr : SigRow, (generate_signals df pe_val)[t]? = some sr ∧
        (sr.buySignal && sr.sellSignal) = false := by
  have hr : df[t]? = some (df.get ⟨t, ht⟩) := List.getElem?_eq_getElem ht
  set r := df.get ⟨t, ht⟩ with hrdef
  have hopp : (oGT r.macd r.macd_signal && oLT r.macd r.macd_signal) = false := by
    rcases hm : r.macd with _ | m
    · rfl
    · rcases hs : r.macd_signal with _ | s
      · rfl
      · simp only [oGT, oLT, Bool.and_eq_false_iff, decide_eq_false_iff_not]
        by_cases h : s < m
        · exact Or.inr (fun h2 => absurd h (not_lt.mpr (le_of_lt h2)))
        · exact Or.inl h
  refine ⟨_, _, macd_cross_up_cell ht hr, macd_cross_down_cell ht hr, ?_, _,
    generate_signals_cell hr (buy_signal_cell ht hr) (sell_signal_cell ht hr), ?_⟩
  · rcases Bool.and_eq_false_iff.mp hopp with h | h <;> simp [h]
  · show ((((oLT r.rsi (some RSI_BUY) &&
        (oGT r.macd r.macd_signal && oLE (prevMacd df t) (prevSig df t))) &&
        oLT (some r.close) r.ma200) && cond_pe_buy pe_val) &&
      (((oGT r.rsi (some RSI_SELL) &&
        (oLT r.macd r.macd_signal && oGE (prevMacd df t) (prevSig df t))) &&
        oGT (some r.close) r.ma200) && cond_pe_sell pe_val)) = false
    rcases Bool.and_eq_false_iff.mp hopp with h | h <;> simp [h]

/-- Witness for C9 at a concrete frame: `t = 1` of `dfBuyW` (where the Buy
flag is in fact true and the Sell flag false). -/
theorem C9_mutual_exclusion_witness :
    1 < dfBuyW.length ∧
    ∃ cu cd : Bool, (macd_cross_up_col dfBuyW)[1]? = some cu ∧
      (macd_cross_down_col dfBuyW)[1]? = some cd ∧ (cu && cd) = false ∧
      ∃ sr : SigRow, (generate_signals dfBuyW none)[1]? = some sr ∧
        (sr.buySignal && sr.sellSignal) = false :=
  ⟨by decide, C9_mutual_exclusion dfBuyW none 1 (by decide)⟩

/-! ## The trade simulator (C2, C3, C4) -/

/-- Closing the position acts on the last recorded trade (the Python
`position` dict is the object most recently appended to `trades`). -/
lemma updateFinal_append (f : Trade → Trade) (acc : List Trade) (x : Trade) :
    updateFinal f (acc ++ [x]) = acc ++ [f x] := by
  induction acc with
  | nil => rfl
  | cons a as ih =>
    rcases as with _ | ⟨b, bs⟩
    · rfl
    · simpa [updateFinal] using ih

/-- The simulator loop refines the two-state machine of the specification: from a
Flat state it produces exactly the trades of the machine appended to the
accumulator, and from a Long state (whose open trade is the last accumulator
entry) likewise. -/
lemma simGo_eq_specTrades (l : List (Nat × SigRow)) :
    (∀ acc, (simGo acc none l).1 = acc ++ specTrades none l) ∧
    (∀ acc dt price, (simGo (acc ++ [openTrade dt price]) (some (dt, price)) l).1 =
      acc ++ specTrades (some (dt, price)) l) := by
  induction l with
  | nil =>
    refine ⟨fun acc => by simp [simGo, specTrades], fun acc dt price => ?_⟩
    simp [simGo, specTrades, completeTrade, openTrade]
  | cons hd rest ih =>
    obtain ⟨ih1, ih2⟩ := ih
    obtain ⟨t, row⟩ := hd
    constructor
    · intro acc
      cases hb : row.buySignal
      · simpa [simGo, hb, specTrades] using ih1 acc
      · simpa [simGo, hb, specTrades] using ih2 acc t row.close
    · intro acc dt price
      cases hs : row.sellSignal
      · simpa [simGo, hs, specTrades] using ih2 acc dt price
      · have hclose : closeTrade t row.close (openTrade dt price) =
            completeTrade dt price (some (t, row.close)) := rfl
        have := ih1 (acc ++ [closeTrade t row.close (openTrade dt price)])
        simpa [simGo, hs, specTrades, updateFinal_append, hclose] using this

/-- C2: `simulate_trades` walks the signal frame in timestamp order and
behaves exactly as the Flat/Long state machine of the specification: while Flat a
Buy row opens a trade at the close of that row (Sell being ignored), while Long a
Sell row closes the open trade at the close of that row with realized return
`(exit - entry) / entry * 100` (Buy being ignored), with at most one
transition per row and no same-step re-entry. -/
theorem C2_state_machine (df : List SigRow) :
    simulate_trades df = specTrades none df.enum := by
  simpa [simulate_trades] using (simGo_eq_specTrades df.enum).1 []

/-- The simulator invariant is preserved by the whole walk. -/
lemma simGo_inv (l : List (Nat × SigRow)) :
    ∀ (trades : List Trade) (pos : Option (Nat × ℚ)),
      SimInv (trades, pos) → SimInv (simGo trades pos l) := by
  induction l with
  | nil => intro trades pos h; simpa [simGo] using h
  | cons hd rest ih =>
    intro trades pos h
    obtain ⟨t, row⟩ := hd
    rcases pos with _ | ⟨dt, price⟩
    · cases hb : row.buySignal
      · simp only [simGo, hb, Option.isNone_none, Bool.false_and, Bool.and_true,
          Option.isSome_none, Bool.and_false, if_neg, Bool.false_eq_true,
          not_false_eq_true, if_false]
        exact ih _ _ h
      · simp only [simGo, hb, Option.isNone_none, Bool.true_and, if_pos]
        exact ih _ _ ⟨trades, rfl, h⟩
    · have hgrd : (row.buySignal && (some (dt, price)).isNone) = false := by simp
      cases hs : row.sellSignal
      · simp only [simGo, hgrd, Bool.false_eq_true, not_false_eq_true, if_neg, hs,
          Option.isSome_some, Bool.false_and, if_false]
        exact ih _ _ h
      · obtain ⟨done, hdone, hclosed⟩ := h
        subst hdone
        simp only [simGo, hgrd, Bool.false_eq_true, not_false_eq_true, if_neg, hs,
          Option.isSome_some, Bool.true_and, if_pos, updateFinal_append]
        refine ih _ _ ?_
        intro tr htr
        rcases List.mem_append.mp htr with hmem | hmem
        · exact hclosed tr hmem
        · rw [List.mem_singleton.mp hmem]
          rfl

/-- C3: if the walk ends still Long, the trade opened at that entry point is
retained in the output with its entry fields set and every exit field
undefined (it is neither dropped nor closed at the final price); every
other emitted trade is closed. -/
theorem C3_open_trade_retained (df : List SigRow) (dt : Nat) (price : ℚ)
    (h : (simGo [] none df.enum).2 = some (dt, price)) :
    ∃ done, simulate_trades df = done ++ [⟨dt, price, none, none, none⟩] ∧
      ∀ tr ∈ done, tr.sell_date.isSome = true := by
  have hinv := simGo_inv df.enum [] none (by intro tr htr; cases htr)
  rcases hst : simGo [] none df.enum with ⟨trades, pos⟩
  rw [hst] at hinv h
  simp only at h
  subst h
  obtain ⟨done, hdone, hclosed⟩ := hinv
  refine ⟨done, ?_, hclosed⟩
  rw [simulate_trades, hst]
  exact hdone

/-- Witness for C3: a concrete frame with one Buy and no later Sell. -/
theorem C3_open_trade_retained_witness :
    (simGo [] none dfOpenW.enum).2 = some (0, 10) ∧
    ∃ done, simulate_trades dfOpenW = done ++ [⟨0, 10, none, none, none⟩] ∧
      ∀ tr ∈ done, tr.sell_date.isSome = true :=
  ⟨by decide, C3_open_trade_retained dfOpenW 0 10 (by decide)⟩

/-- C4: after any prefix of the walk, at most one recorded trade is still
open, and the number of opens (trades recorded) never exceeds the number of
closes (trades with an exit) by more than one. -/
theorem C4_single_position (df : List SigRow) (n : Nat) :
    (((simGo [] none (df.enum.take n)).1.filter
        (fun tr => tr.sell_date.isNone)).length ≤ 1) ∧
    ((simGo [] none (df.enum.take n)).1.length ≤
      ((simGo [] none (df.enum.take n)).1.filter
        (fun tr => tr.sell_date.isSome)).length + 1) := by
  have hinv := simGo_inv (df.enum.take n) [] none (by intro tr htr; cases htr)
  rcases hst : simGo [] none (df.enum.take n) with ⟨trades, pos⟩
  rw [hst] at hinv
  rcases pos with _ | ⟨dt, price⟩
  · have hopen : trades.filter (fun tr => tr.sell_date.isNone) = [] := by
      rw [List.filter_eq_nil_iff]
      intro tr htr
      simp [Option.isNone_iff_eq_none, Option.isSome_iff_ne_none.mp (hinv tr htr)]
    have hclosed : trades.filter (fun tr => tr.sell_date.isSome) = trades :=
      List.filter_eq_self.mpr hinv
    rw [hopen, hclosed]
    simp
  · obtain ⟨done, hdone, hcl⟩ := hinv
    subst hdone
    have hopen : done.filter (fun tr => tr.sell_date.isNone) = [] := by
      rw [List.filter_eq_nil_iff]
      intro tr htr
      simp [Option.isNone_iff_eq_none, Option.isSome_iff_ne_none.mp (hcl tr htr)]
    have hclosed : done.filter (fun tr => tr.sell_date.isSome) = done :=
      List.filter_eq_self.mpr hcl
    constructor
    · rw [List.filter_append, hopen]
      simp [openTrade]
    · rw [List.filter_append, hclosed]
      simp

/-! ## The moving average (C8) -/

lemma rollingMean_cell {w minp : Nat} {xs : List ℚ} {t : Nat} (ht : t < xs.length) :
    (rollingMean w minp xs)[t]? =
      some (if minp ≤ ((xs.take (t + 1)).drop (t + 1 - w)).length then
        some (((xs.take (t + 1)).drop (t + 1 - w)).sum /
          ((((xs.take (t + 1)).drop (t + 1 - w)).length : Nat) : ℚ))
      else none) := by
  rw [rollingMean]
  exact map_cell _ (List.getElem?_range ht)

/-- Row `t` of `compute_indicators`. -/
lemma compute_indicators_cell (lib : TaLib) {close : List ℚ} {t : Nat}
    (ht : t < close.length) :
    (compute_indicators lib close)[t]? = some
      { close := (close[t]?).getD 0
        rsi := cellO (lib.rsiF close) t
        macd := cellO (lib.macdF close) t
        macd_signal := cellO (lib.macdSigF close) t
        macd_diff := cellO (lib.macdDiffF close) t
        ma200 := cellO (rollingMean MA_PERIOD 1 close) t } := by
  rw [compute_indicators]
  exact map_cell _ (List.getElem?_range ht)

/-- C8: for every non-empty close series the `MA200` cell is defined at
every timestamp; before the 200-point window is full it is the arithmetic
mean of all points so far (at least one), afterwards the mean of the
trailing 200 points. -/
theorem C8_moving_average_total (lib : TaLib) (close : List ℚ) (t : Nat)
    (ht : t < close.length) :
    ∃ r : IndRow, (compute_indicators lib close)[t]? = some r ∧
      ∃ m : ℚ, r.ma200 = some m ∧
        (t + 1 ≤ MA_PERIOD → m = (close.take (t + 1)).sum / ((t + 1 : Nat) : ℚ)) ∧
        (MA_PERIOD ≤ t + 1 →
          m = ((close.take (t + 1)).drop (t + 1 - MA_PERIOD)).sum / ((MA_PERIOD : Nat) : ℚ)) := by
  refine ⟨_, compute_indicators_cell lib ht, ?_⟩
  have hwin : (((close.take (t + 1)).drop (t + 1 - MA_PERIOD)).length) =
      min (t + 1) MA_PERIOD := by
    simp only [List.length_drop, List.length_take, MA_PERIOD]
    omega
  have hpos : 1 ≤ (((close.take (t + 1)).drop (t + 1 - MA_PERIOD)).length) := by
    rw [hwin]
    simp only [MA_PERIOD]
    omega
  have hcell : cellO (rollingMean MA_PERIOD 1 close) t =
      some (((close.take (t + 1)).drop (t + 1 - MA_PERIOD)).sum /
        (((((close.take (t + 1)).drop (t + 1 - MA_PERIOD)).length : Nat)) : ℚ)) := by
    rw [cellO, rollingMean_cell ht, if_pos hpos]
    rfl
  refine ⟨_, hcell, ?_, ?_⟩
  · intro hle
    have hdrop : t + 1 - MA_PERIOD = 0 := by omega
    have hlen : ((close.take (t + 1)).drop (t + 1 - MA_PERIOD)).length = t + 1 := by
      rw [hwin]
      omega
    rw [hdrop, List.drop_zero] at hlen ⊢
    rw [hlen]
  · intro hge
    have hlen : ((close.take (t + 1)).drop (t + 1 - MA_PERIOD)).length = MA_PERIOD := by
      rw [hwin]
      omega
    rw [hlen]

/-- Witness for C8: the single-point series `closeW`, where the moving
average is defined from the very first point. -/
theorem C8_moving_average_total_witness :
    0 < closeW.length ∧
    ∃ r : IndRow, (compute_indicators libC closeW)[0]? = some r ∧
      ∃ m : ℚ, r.ma200 = some m ∧
        (0 + 1 ≤ MA_PERIOD → m = (closeW.take (0 + 1)).sum / ((0 + 1 : Nat) : ℚ)) ∧
        (MA_PERIOD ≤ 0 + 1 →
          m = ((closeW.take (0 + 1)).drop (0 + 1 - MA_PERIOD)).sum / ((MA_PERIOD : Nat) : ℚ)) :=
  ⟨by decide, C8_moving_average_total libC closeW 0 (by decide)⟩

/-! ## Empty price series handling (C5) -/

/-- C5 counterexample: with no data for VOO (the first ticker of
`ETF_LIST`) but data for every other ticker, `second_check` does not skip
VOO and continue -- the uncaught `SystemExit` of `fetch_price_df` aborts
the entire run, so no instrument of the batch is processed. -/
theorem C5_counterexample :
    exceptErrOf (second_check dlE libC (fun _ => none) ETF_LIST) =
      some "No data downloaded for VOO" := by
  decide

/-- C5 amended: only the notification path (`analyze_etf` inside
`daily_check`) skips an instrument with an empty price series and continues
with the rest of the batch; in the report path (`second_check`),
`fetch_price_df` raises `SystemExit` on an empty series, which nothing
catches, so the whole run aborts. -/
theorem C5_empty_series (dl : String → List ℚ) (lib : TaLib)
    (peF : String → Option ℚ) (t : String) (rest : List String) (h : dl t = []) :
    analyze_etf dl lib t = none ∧
    daily_check_signals dl lib (t :: rest) = daily_check_signals dl lib rest ∧
    second_check dl lib peF (t :: rest) =
      Except.error ("No data downloaded for " ++ t) := by
  have hana : analyze_etf dl lib t = none := by
    rw [analyze_etf, h]
    rfl
  refine ⟨hana, ?_, ?_⟩
  · rw [daily_check_signals, daily_check_signals, List.filterMap_cons, hana]
  · rw [second_check, process_ticker, fetch_price_df, h]
    rfl

/-- Witness for C5 at a concrete batch: VOO has no data, SPY does. -/
theorem C5_empty_series_witness :
    dlE "VOO" = [] ∧
    (analyze_etf dlE libC "VOO" = none ∧
      daily_check_signals dlE libC ["VOO", "SPY"] = daily_check_signals dlE libC ["SPY"] ∧
      second_check dlE libC (fun _ => none) ["VOO", "SPY"] =
        Except.error ("No data downloaded for " ++ "VOO")) :=
  ⟨by decide, C5_empty_series dlE libC (fun _ => none) "VOO" ["SPY"] (by decide)⟩

/-! ## Frame mutation across the pipeline (C6) -/

/-- Concrete evaluation of the indicator frame over `closeC`. -/
lemma frameC_eval : compute_indicators libC closeC = rowsC := by
  norm_num [compute_indicators, cellO, rollingMean, libC, closeC, rowsC,
    List.range_succ, MA_PERIOD]

lemma heapC_eval : (compute_indicatorsH [] libC closeC).1 = [⟨rowsC, none, none⟩] := by
  simp only [compute_indicatorsH, frameC_eval, List.nil_append]

/-- C6 counterexample: the frame object produced by the indicator stage is
NOT unchanged after signal generation runs on it -- `generate_signals`
writes the `Buy_Signal`/`Sell_Signal` columns into the very object it was
handed. -/
theorem C6_counterexample :
    ((generate_signalsH (compute_indicatorsH [] libC closeC).1 0 none).1)[0]? ≠
      ((compute_indicatorsH [] libC closeC).1)[0]? := by
  rw [heapC_eval]
  decide

/-- C6 amended: `compute_indicators` allocates a fresh frame and leaves
every existing object unchanged, and `simulate_trades` does not modify the
heap at all; but `generate_signals` mutates the indicator frame in place,
storing the two signal columns into the same object and returning the same
reference rather than a new value. -/
theorem C6_in_place_mutation (h : Heap) (r : Nat) (pe_val : Option ℚ) (fr : PyFrame)
    (hfr : h[r]? = some fr) :
    (generate_signalsH h r pe_val).2 = r ∧
    ((generate_signalsH h r pe_val).1)[r]? =
      some ⟨fr.rows, some (buy_signal_col fr.rows pe_val),
        some (sell_signal_col fr.rows pe_val)⟩ ∧
    (simulate_tradesH h r).1 = h ∧
    ∀ (lib : TaLib) (close : List ℚ) (i : Nat), i < h.length →
      ((compute_indicatorsH h lib close).1)[i]? = h[i]? := by
  have hr : r < h.length := by
    by_contra hcon
    rw [List.getElem?_eq_none (by omega)] at hfr
    cases hfr
  refine ⟨?_, ?_, ?_, ?_⟩
  · rw [generate_signalsH, hfr]
  · rw [generate_signalsH, hfr]
    simp [List.getElem?_set, hr]
  · rw [simulate_tradesH, hfr]
  · intro lib close i hi
    rw [compute_indicatorsH]
    simp [List.getElem?_append, hi]

/-- Witness for C6 at a concrete one-frame heap. -/
theorem C6_in_place_mutation_witness :
    heapW[0]? = some ⟨dfBuyW, none, none⟩ ∧
    ((generate_signalsH heapW 0 none).2 = 0 ∧
      ((generate_signalsH heapW 0 none).1)[0]? =
        some ⟨dfBuyW, some (buy_signal_col dfBuyW none),
          some (sell_signal_col dfBuyW none)⟩ ∧
      (simulate_tradesH heapW 0).1 = heapW ∧
      ∀ (lib : TaLib) (close : List ℚ) (i : Nat), i < heapW.length →
        ((compute_indicatorsH heapW lib close).1)[i]? = heapW[i]?) :=
  ⟨by decide, C6_in_place_mutation heapW 0 none ⟨dfBuyW, none, none⟩ (by decide)⟩

/-! ## The two pipeline variants (C10) -/

lemma compute_indicators_length (lib : TaLib) (close : List ℚ) :
    (compute_indicators lib close).length = close.length := by
  simp [compute_indicators]

/-- C10 counterexample: on the concrete series `closeC` with the `ta` stub
`libC`, the notification path reports a buy while the Buy
flag of the report path at the latest timestamp is false (the close sits above the moving
average, which `analyze_etf` never checks), so the two variants do not
agree. -/
theorem C10_counterexample :
    (analyze_etf dlC libC "VOO").isSome = true ∧
    ((generate_signals (compute_indicators libC (dlC "VOO")) none).getLast?).map
      (fun sr => sr.buySignal) = some false := by
  constructor
  · simp only [analyze_etf, dlC, frameC_eval]
    decide
  · simp only [dlC]
    rw [frameC_eval]
    decide

/-- C10 amended: the notification path reports a buy exactly when the frame
has at least two rows, the latest RSI, MACD and MACD-signal are defined, RSI is
below 40, and MACD is strictly above its signal today and strictly below it
yesterday -- it checks neither the close-versus-moving-average condition nor
the valuation filter of the Buy flag of the report path, and uses a strict
comparison at the previous timestamp, so the two variants need not agree at
the latest timestamp. -/
theorem C10_notification_rule (dl : String → List ℚ) (lib : TaLib) (ticker : String) :
    (analyze_etf dl lib ticker).isSome = true ↔ AnalyzeBuySpec dl lib ticker := by
  constructor
  · intro hsome
    rw [analyze_etf] at hsome
    by_cases hemp : (dl ticker).isEmpty
    · rw [if_pos hemp] at hsome
      cases hsome
    · rw [if_neg hemp] at hsome
      by_cases hlt : (compute_indicators lib (dl ticker)).length < 2
      · rw [if_pos hlt] at hsome
        cases hsome
      · rw [if_neg hlt] at hsome
        refine ⟨by omega, ?_⟩
        split at hsome
        case _ today yd hta hyd =>
          split at hsome
          case _ trsi tmacd tsig hrsi hmacd hsig =>
            dsimp only [] at hsome
            split at hsome
            case isTrue hguard =>
              simp only [Bool.and_eq_true] at hguard
              obtain ⟨⟨hg1a, hg2⟩, hg3⟩ := hguard
              obtain ⟨ym, ys, hym, hys, hcmp⟩ := oLT_eq_true_iff.mp hg1a
              exact ⟨today, yd, trsi, tmacd, tsig, hta, hyd, hrsi, hmacd, hsig,
                of_decide_eq_true hg3, of_decide_eq_true hg2,
                ym, ys, hym, hys, hcmp⟩
            case isFalse => cases hsome
          case _ => cases hsome
        case _ hnone => cases hsome
  · rintro ⟨hlen, today, yd, trsi, tmacd, tsig, hta, hyd, hrsi, hmacd, hsig,
      hrsilt, hcross, ym, ys, hym, hys, hyc⟩
    have hlc := compute_indicators_length lib (dl ticker)
    have hne : ¬((dl ticker).isEmpty = true) := by
      rw [List.isEmpty_iff]
      intro hnil
      have h0 : (dl ticker).length = 0 := by rw [hnil]; rfl
      omega
    have hlt : ¬((compute_indicators lib (dl ticker)).length < 2) := by omega
    rw [analyze_etf, if_neg hne, if_neg hlt, hta, hyd]
    dsimp only []
    rw [hrsi, hmacd, hsig]
    dsimp only []
    have hguard : (oLT yd.macd yd.macd_signal && decide (tsig < tmacd) &&
        decide (trsi < RSI_BUY)) = true := by
      rw [oLT_eq_true_iff.mpr ⟨ym, ys, hym, hys, hyc⟩, decide_eq_true hcross,
        decide_eq_true hrsilt]
      rfl
    rw [if_pos hguard]
    rfl

end Quantlearning
